import Mathlib

/-!
Verification of the `supabase-password-reset` package (single class
`SupabasePasswordReset` with one public operation `resetPasswordByEmail`).

The JavaScript source is embedded shallowly:
* external collaborators (the Supabase directory client, bcrypt, the
  Mailgun client, and `Math.random`) are modelled by an explicit
  environment `Env` whose calls either return a value or throw;
* `resetPasswordByEmail` is a pure function of the instance, the
  environment and the email, returning the `ResetResult` together with a
  `Trace` of the credential-write calls and notification-send calls it
  performed;
* JavaScript numbers occurring as configured lengths/cost factors are
  modelled as `Int`; absent (`undefined`) configuration fields as
  `Option`.
-/

namespace SupabasePasswordReset

/-- Outcome of a call to an external collaborator: it either returns a
value or throws an exception carrying a message. -/
inductive Outcome (α : Type) where
  | throws (msg : String)
  | returns (val : α)
  deriving Repr, DecidableEq

/-- The `id, email` projection of a row of `auth.users` returned by the
directory lookup. -/
structure UserRecord where
  id : String
  email : String
  deriving Repr, DecidableEq

/-- The message payload handed to `mailgun.messages.create`
(`from`, `to`, `subject`, `text`). -/
structure EmailData where
  from_ : String
  to_ : String
  subject : String
  text : String
  deriving Repr, DecidableEq

/-- The value resolved by `resetPasswordByEmail`: `success`, `message`,
and the optional `error` detail (present only in the catch branch). -/
structure ResetResult where
  success : Bool
  message : String
  error : Option String := none
  deriving Repr, DecidableEq

/-- The effective options of an instance after the constructor's shallow
merge (`saltRounds`, `passwordLength`, `fromEmail`, `fromName`,
`subject`, `emailTemplateFunction`). -/
structure Options where
  saltRounds : Int
  passwordLength : Int
  fromEmail : String
  fromName : String
  subject : String
  emailTemplateFunction : String → String → String

/-- A constructed instance: the Mailgun domain and the merged options
(the opaque Supabase and Mailgun clients live in `Env`). -/
structure ResetInstance where
  mailgunDomain : String
  options : Options

/-- The behaviour of the external collaborators during one invocation:
the directory lookup and update, bcrypt hashing, the Mailgun send, and
the stream of `Math.floor(Math.random() * chars.length)` draws. -/
structure Env where
  lookup : String → Outcome (Option UserRecord × Option String)
  rand : Nat → Nat
  hash : String → Int → Outcome String
  update : String → String → Outcome (Option String)
  send : String → EmailData → Outcome Unit

/-- The observable collaborator calls of one invocation: the
`(id, hashedPassword)` update calls and the Mailgun send calls, in
order.  A call is recorded when it is issued, whether or not it
succeeds. -/
structure Trace where
  writes : List (String × String) := []
  sends : List EmailData := []
  deriving Repr, DecidableEq

/-- `'User not found'` result (lookup errored or returned no record). -/
def userNotFoundResult : ResetResult :=
  { success := false, message := "User not found" }

/-- `'Failed to update password'` result (directory write failed). -/
def failedUpdateResult : ResetResult :=
  { success := false, message := "Failed to update password" }

/-- The catch-branch result, with the exception message in `error`. -/
def unexpectedErrorResult (m : String) : ResetResult :=
  { success := false, message := "An unexpected error occurred", error := some m }

/-- The full-success result. -/
def successResult : ResetResult :=
  { success := true
    message := "Password reset successful. An email has been sent with the new password." }

/-- The character alphabet of `_generateRandomPassword`. -/
def passwordChars : String :=
  "abcdefghijklmnopqrstuvwxyzABCDEFGHIJKLMNOPQRSTUVWXYZ0123456789!@#$%^&*()"

/-- JavaScript `String.prototype.charAt`: the one-character string at
index `i`, or the empty string when `i` is out of range. -/
def charAt (s : String) (i : Nat) : String :=
  match s.data.get? i with
  | some c => String.singleton c
  | none => ""

/-- `_generateRandomPassword`: concatenates `passwordLength` characters
`chars.charAt(draw i)` (no iterations when the configured length is zero
or negative, mirroring the JavaScript `for` loop over a number). -/
def generateRandomPassword (passwordLength : Int) (rand : Nat → Nat) : String :=
  (List.range passwordLength.toNat).foldl
    (fun pw i => pw ++ charAt passwordChars (rand i)) ""

/-- `_defaultEmailTemplate` (ignores its `email` argument). -/
def defaultEmailTemplate (_email password : String) : String :=
  "Hello,\n\nYour password has been reset. Your new temporary password is: "
    ++ password
    ++ "\n\nPlease login with this password and change it immediately for security reasons.\n\nThis is an automated message, please do not reply."

/-- The `emailData` object composed before the Mailgun call. -/
def composedEmail (opts : Options) (email newPassword : String) : EmailData :=
  { from_ := opts.fromName ++ " <" ++ opts.fromEmail ++ ">"
    to_ := email
    subject := opts.subject
    text := opts.emailTemplateFunction email newPassword }

/-- `resetPasswordByEmail(email)`.  Mirrors the JavaScript control flow:
lookup (`userError || !user` → not-found), password generation, bcrypt
hash, directory update (`updateError` → failed-update), Mailgun send,
success; any thrown collaborator call lands in the single catch branch.
Returns the result together with the trace of write/send calls. -/
def resetPasswordByEmail (inst : ResetInstance) (env : Env) (email : String) :
    ResetResult × Trace :=
  match env.lookup email with
  | .throws m => (unexpectedErrorResult m, {})
  | .returns (data, userError) =>
    match data, userError with
    | some user, none =>
      match env.hash (generateRandomPassword inst.options.passwordLength env.rand)
          inst.options.saltRounds with
      | .throws m => (unexpectedErrorResult m, {})
      | .returns hashedPassword =>
        match env.update user.id hashedPassword with
        | .throws m => (unexpectedErrorResult m, { writes := [(user.id, hashedPassword)] })
        | .returns (some _) =>
            (failedUpdateResult, { writes := [(user.id, hashedPassword)] })
        | .returns none =>
          match env.send inst.mailgunDomain
              (composedEmail inst.options email
                (generateRandomPassword inst.options.passwordLength env.rand)) with
          | .throws m =>
              (unexpectedErrorResult m,
                { writes := [(user.id, hashedPassword)]
                  sends := [composedEmail inst.options email
                    (generateRandomPassword inst.options.passwordLength env.rand)] })
          | .returns _ =>
              (successResult,
                { writes := [(user.id, hashedPassword)]
                  sends := [composedEmail inst.options email
                    (generateRandomPassword inst.options.passwordLength env.rand)] })
    | _, _ => (userNotFoundResult, {})

/-- The user-supplied `config.options` object: each field is optionally
present (absent ≡ JavaScript `undefined`, omitted by the spread). -/
structure ConfigOptions where
  saltRounds : Option Int := none
  passwordLength : Option Int := none
  fromEmail : Option String := none
  fromName : Option String := none
  subject : Option String := none
  emailTemplateFunction : Option (String → String → String) := none

/-- The `config` object passed to the constructor; the four connection
strings may be absent. -/
structure Config where
  supabaseUrl : Option String := none
  supabaseKey : Option String := none
  mailgunApiKey : Option String := none
  mailgunDomain : Option String := none
  options : Option ConfigOptions := none

/-- JavaScript falsiness of an optional string: absent (`undefined`) or
the empty string. -/
def falsyStr (s : Option String) : Bool :=
  match s with
  | none => true
  | some v => v.isEmpty

/-- The shallow merge `{ ...defaults, ...config.options }`. -/
def mergeOptions (o : ConfigOptions) : Options :=
  { saltRounds := o.saltRounds.getD 10
    passwordLength := o.passwordLength.getD 10
    fromEmail := o.fromEmail.getD "noreply@yourdomain.com"
    fromName := o.fromName.getD "Password Reset"
    subject := o.subject.getD "Your Password Has Been Reset"
    emailTemplateFunction := o.emailTemplateFunction.getD defaultEmailTemplate }

/-- The constructor: throws
`'Missing required configuration parameters'` when any of the four
connection fields is falsy, otherwise builds the instance with the
merged options. -/
def mkSupabasePasswordReset (config : Config) : Except String ResetInstance :=
  if falsyStr config.supabaseUrl || falsyStr config.supabaseKey
      || falsyStr config.mailgunApiKey || falsyStr config.mailgunDomain then
    .error "Missing required configuration parameters"
  else
    .ok { mailgunDomain := config.mailgunDomain.getD ""
          options := mergeOptions (config.options.getD {}) }

/-! ### Helper lemmas about `_generateRandomPassword` -/

/-- In-range `charAt` yields the singleton of the indexed character. -/
lemma charAt_data_of_lt (s : String) (i : Nat) (h : i < s.data.length) :
    (charAt s i).data = [s.data.get ⟨i, h⟩] := by
  simp [charAt, List.getElem?_eq_getElem h, String.singleton, String.data_push]

/-- Unfolding the password-building fold into a `map` over the drawn
indices, provided every draw is in range of the alphabet. -/
lemma foldl_charAt_data (rand : Nat → Nat) (hr : ∀ i, rand i < passwordChars.data.length)
    (l : List Nat) (init : String) :
    (l.foldl (fun pw i => pw ++ charAt passwordChars (rand i)) init).data
      = init.data ++ l.map (fun i => passwordChars.data.get ⟨rand i, hr i⟩) := by
  induction l generalizing init with
  | nil => simp
  | cons a t ih =>
      rw [List.foldl_cons, ih]
      simp [String.data_append, charAt_data_of_lt _ _ (hr a)]

/-- The characters of the generated password, as a `map` over the draws. -/
lemma generateRandomPassword_data (len : Int) (rand : Nat → Nat)
    (hr : ∀ i, rand i < passwordChars.data.length) :
    (generateRandomPassword len rand).data
      = (List.range len.toNat).map (fun i => passwordChars.data.get ⟨rand i, hr i⟩) := by
  rw [generateRandomPassword, foldl_charAt_data rand hr]
  rfl

/-- When the configured length is zero or negative, the loop body never
runs and the generated password is empty. -/
lemma generateRandomPassword_of_nonpos (len : Int) (rand : Nat → Nat)
    (h : len ≤ 0) : generateRandomPassword len rand = "" := by
  rw [generateRandomPassword, Int.toNat_of_nonpos h]
  rfl

/-- C7.  Whenever the credential-generation step runs with a
non-negative configured length and in-range random draws
(`Math.floor(Math.random() * chars.length)` always is), the generated
credential has exactly `passwordLength` characters and each of them
belongs to the fixed 72-character alphabet. -/
theorem generated_password_length_and_alphabet (len : Int) (rand : Nat → Nat)
    (hr : ∀ i, rand i < passwordChars.data.length) (hlen : 0 ≤ len) :
    ((generateRandomPassword len rand).length : Int) = len ∧
    ∀ c ∈ (generateRandomPassword len rand).data, c ∈ passwordChars.data := by
  constructor
  · rw [String.length, generateRandomPassword_data len rand hr]
    simp [Int.toNat_of_nonneg hlen]
  · intro c hc
    rw [generateRandomPassword_data len rand hr] at hc
    obtain ⟨i, _, hi⟩ := List.mem_map.mp hc
    exact hi ▸ List.get_mem _ _ _

/-- A bounded stream of random draws (every index is reduced modulo the
alphabet size), used to instantiate random-dependent theorems. -/
def boundedRand (i : Nat) : Nat := i % passwordChars.data.length

lemma boundedRand_lt (i : Nat) : boundedRand i < passwordChars.data.length :=
  Nat.mod_lt i (by decide)

/-- Witness for C7 at length 10 and the bounded draw stream. -/
theorem generated_password_length_and_alphabet_witness :
    (∀ i, boundedRand i < passwordChars.data.length) ∧ (0 : Int) ≤ 10 ∧
    (((generateRandomPassword 10 boundedRand).length : Int) = 10 ∧
      ∀ c ∈ (generateRandomPassword 10 boundedRand).data, c ∈ passwordChars.data) :=
  ⟨boundedRand_lt, by decide,
    generated_password_length_and_alphabet 10 boundedRand boundedRand_lt (by decide)⟩

/-! ### Control-flow theorems about `resetPasswordByEmail` -/

/-- C5.  Totality at the boundary: whatever the collaborators do —
including throwing at the lookup, hash, write or send step — the
operation returns one of the four documented result values; every
uncaught exception becomes
`{success:false, message:"An unexpected error occurred", error:<msg>}`. -/
theorem reset_total (inst : ResetInstance) (env : Env) (email : String) :
    ((resetPasswordByEmail inst env email).1 = successResult ∨
     (resetPasswordByEmail inst env email).1 = userNotFoundResult ∨
     (resetPasswordByEmail inst env email).1 = failedUpdateResult ∨
     ∃ m, (resetPasswordByEmail inst env email).1 = unexpectedErrorResult m) ∧
    (∀ m, env.lookup email = .throws m →
      resetPasswordByEmail inst env email = (unexpectedErrorResult m, {})) ∧
    (∀ user m, env.lookup email = .returns (some user, none) →
      env.hash (generateRandomPassword inst.options.passwordLength env.rand)
          inst.options.saltRounds = .throws m →
      resetPasswordByEmail inst env email = (unexpectedErrorResult m, {})) ∧
    (∀ user hashed m, env.lookup email = .returns (some user, none) →
      env.hash (generateRandomPassword inst.options.passwordLength env.rand)
          inst.options.saltRounds = .returns hashed →
      env.update user.id hashed = .throws m →
      resetPasswordByEmail inst env email
        = (unexpectedErrorResult m, { writes := [(user.id, hashed)] })) ∧
    (∀ user hashed m, env.lookup email = .returns (some user, none) →
      env.hash (generateRandomPassword inst.options.passwordLength env.rand)
          inst.options.saltRounds = .returns hashed →
      env.update user.id hashed = .returns none →
      env.send inst.mailgunDomain
          (composedEmail inst.options email
            (generateRandomPassword inst.options.passwordLength env.rand)) = .throws m →
      resetPasswordByEmail inst env email
        = (unexpectedErrorResult m,
            { writes := [(user.id, hashed)]
              sends := [composedEmail inst.options email
                (generateRandomPassword inst.options.passwordLength env.rand)] })) := by
  refine ⟨?_, ?_, ?_, ?_, ?_⟩
  · unfold resetPasswordByEmail
    repeat' split
    all_goals first
      | exact Or.inl rfl
      | exact Or.inr (Or.inl rfl)
      | exact Or.inr (Or.inr (Or.inl rfl))
      | exact Or.inr (Or.inr (Or.inr ⟨_, rfl⟩))
  · intro m hm
    simp only [resetPasswordByEmail, hm]
  · intro user m h1 h2
    simp only [resetPasswordByEmail, h1, h2]
  · intro user hashed m h1 h2 h3
    simp only [resetPasswordByEmail, h1, h2, h3]
  · intro user hashed m h1 h2 h3 h4
    simp only [resetPasswordByEmail, h1, h2, h3, h4]

/-- C2.  When the lookup returns an error object or no record
(`userError || !user`), the result is the `'User not found'` failure and
the trace is empty: no credential write and no notification send. -/
theorem reset_user_not_found (inst : ResetInstance) (env : Env) (email : String)
    (data : Option UserRecord) (err : Option String)
    (hl : env.lookup email = .returns (data, err))
    (hcond : data = none ∨ err.isSome) :
    resetPasswordByEmail inst env email = (userNotFoundResult, {}) := by
  unfold resetPasswordByEmail
  rw [hl]
  rcases data with _ | u
  · rfl
  · rcases err with _ | e
    · rcases hcond with h | h
      · exact absurd h (by simp)
      · exact absurd h (by simp)
    · rfl

/-- C3.  When the account is found but the directory update returns an
error, the result is the `'Failed to update password'` failure, with
exactly one write call (no retry) and no send call. -/
theorem reset_update_failure (inst : ResetInstance) (env : Env) (email : String)
    (user : UserRecord) (hashed : String) (e : String)
    (hl : env.lookup email = .returns (some user, none))
    (hh : env.hash (generateRandomPassword inst.options.passwordLength env.rand)
            inst.options.saltRounds = .returns hashed)
    (hu : env.update user.id hashed = .returns (some e)) :
    resetPasswordByEmail inst env email
      = (failedUpdateResult, { writes := [(user.id, hashed)], sends := [] }) := by
  simp only [resetPasswordByEmail, hl, hh, hu]

/-- C4.  When the write succeeds but the Mailgun send throws, the result
is the generic unexpected-error failure carrying the exception message,
while the trace still holds the write of the new (never-delivered)
credential hash — the write is not rolled back. -/
theorem reset_send_failure (inst : ResetInstance) (env : Env) (email : String)
    (user : UserRecord) (hashed : String) (m : String)
    (hl : env.lookup email = .returns (some user, none))
    (hh : env.hash (generateRandomPassword inst.options.passwordLength env.rand)
            inst.options.saltRounds = .returns hashed)
    (hu : env.update user.id hashed = .returns none)
    (hs : env.send inst.mailgunDomain
            (composedEmail inst.options email
              (generateRandomPassword inst.options.passwordLength env.rand))
          = .throws m) :
    resetPasswordByEmail inst env email
      = (unexpectedErrorResult m,
          { writes := [(user.id, hashed)]
            sends := [composedEmail inst.options email
              (generateRandomPassword inst.options.passwordLength env.rand)] })
      ∧ (unexpectedErrorResult m).error = some m := by
  refine ⟨?_, rfl⟩
  simp only [resetPasswordByEmail, hl, hh, hu, hs]

/-- C1.  When lookup, write and send all succeed, the result is the
literal success message and the trace holds exactly one write against
the found record's id and exactly one send addressed to the input
email. -/
theorem reset_success (inst : ResetInstance) (env : Env) (email : String)
    (user : UserRecord) (hashed : String)
    (hl : env.lookup email = .returns (some user, none))
    (hh : env.hash (generateRandomPassword inst.options.passwordLength env.rand)
            inst.options.saltRounds = .returns hashed)
    (hu : env.update user.id hashed = .returns none)
    (hs : env.send inst.mailgunDomain
            (composedEmail inst.options email
              (generateRandomPassword inst.options.passwordLength env.rand))
          = .returns ()) :
    resetPasswordByEmail inst env email
      = (successResult,
          { writes := [(user.id, hashed)]
            sends := [composedEmail inst.options email
              (generateRandomPassword inst.options.passwordLength env.rand)] })
      ∧ (composedEmail inst.options email
          (generateRandomPassword inst.options.passwordLength env.rand)).to_ = email := by
  refine ⟨?_, rfl⟩
  simp only [resetPasswordByEmail, hl, hh, hu, hs]

/-- C8.  Whenever the notification step is reached (lookup found the
account, hash and write succeeded), the single message handed to the
sender has `from = "{fromName} <{fromEmail}>"`, `to` = the input email,
`subject` = the configured subject, and body
`emailTemplateFunction(email, newPassword)` — in particular a custom
template function determines the body exactly. -/
theorem reset_email_composition (inst : ResetInstance) (env : Env) (email : String)
    (user : UserRecord) (hashed : String)
    (hl : env.lookup email = .returns (some user, none))
    (hh : env.hash (generateRandomPassword inst.options.passwordLength env.rand)
            inst.options.saltRounds = .returns hashed)
    (hu : env.update user.id hashed = .returns none) :
    (resetPasswordByEmail inst env email).2.sends
      = [{ from_ := inst.options.fromName ++ " <" ++ inst.options.fromEmail ++ ">"
           to_ := email
           subject := inst.options.subject
           text := inst.options.emailTemplateFunction email
             (generateRandomPassword inst.options.passwordLength env.rand) }] := by
  simp only [resetPasswordByEmail, hl, hh, hu]
  cases hs : env.send inst.mailgunDomain
      (composedEmail inst.options email
        (generateRandomPassword inst.options.passwordLength env.rand)) with
  | throws m => simp [hs, composedEmail]
  | returns v => simp [hs, composedEmail]

/-- Every invocation either performs no write at all, or performs the
single write `(user.id, hashed)` where `hashed` is what the hash
collaborator returned for the generated password. -/
lemma writes_shape (inst : ResetInstance) (env : Env) (email : String) :
    (resetPasswordByEmail inst env email).2.writes = [] ∨
    ∃ (user : UserRecord) (hashed : String),
      env.hash (generateRandomPassword inst.options.passwordLength env.rand)
          inst.options.saltRounds = .returns hashed ∧
      (resetPasswordByEmail inst env email).2.writes = [(user.id, hashed)] := by
  cases hl : env.lookup email with
  | throws m => exact Or.inl (by simp only [resetPasswordByEmail, hl])
  | returns p =>
    obtain ⟨data, err⟩ := p
    cases data with
    | none =>
      cases err with
      | none => exact Or.inl (by simp only [resetPasswordByEmail, hl])
      | some e => exact Or.inl (by simp only [resetPasswordByEmail, hl])
    | some user =>
      cases err with
      | some e => exact Or.inl (by simp only [resetPasswordByEmail, hl])
      | none =>
        cases hh : env.hash (generateRandomPassword inst.options.passwordLength env.rand)
            inst.options.saltRounds with
        | throws m => exact Or.inl (by simp only [resetPasswordByEmail, hl, hh])
        | returns hashed =>
          cases hu : env.update user.id hashed with
          | throws m =>
              exact Or.inr ⟨user, hashed, rfl, by simp only [resetPasswordByEmail, hl, hh, hu]⟩
          | returns o =>
            cases o with
            | some e =>
                exact Or.inr ⟨user, hashed, rfl, by simp only [resetPasswordByEmail, hl, hh, hu]⟩
            | none =>
              cases hs : env.send inst.mailgunDomain
                  (composedEmail inst.options email
                    (generateRandomPassword inst.options.passwordLength env.rand)) with
              | throws m =>
                  exact Or.inr
                    ⟨user, hashed, rfl, by simp only [resetPasswordByEmail, hl, hh, hu, hs]⟩
              | returns v =>
                  exact Or.inr
                    ⟨user, hashed, rfl, by simp only [resetPasswordByEmail, hl, hh, hu, hs]⟩

/-- C9.  Assuming the hash collaborator never returns its own input
(bcrypt hashes carry a `$2…$` prefix and salt, so the digest never
equals the plaintext), every value the operation ever writes to the
directory's credential field is the hash returned for the generated
plaintext, and never the plaintext itself. -/
theorem reset_writes_only_hash (inst : ResetInstance) (env : Env) (email : String)
    (hneq : ∀ p r h, env.hash p r = .returns h → h ≠ p) :
    ∀ w ∈ (resetPasswordByEmail inst env email).2.writes,
      env.hash (generateRandomPassword inst.options.passwordLength env.rand)
          inst.options.saltRounds = .returns w.2
      ∧ w.2 ≠ generateRandomPassword inst.options.passwordLength env.rand := by
  intro w hw
  rcases writes_shape inst env email with h | ⟨user, hashed, hh, h⟩
  · rw [h] at hw
    cases hw
  · rw [h] at hw
    have hw2 := List.mem_singleton.mp hw
    subst hw2
    exact ⟨hh, hneq _ _ _ hh⟩

/-- C10.  The configured password length is never validated: with a
zero or negative `passwordLength` the generator returns the empty
string, and the operation hashes, persists and emails that empty
credential, reporting full success when the collaborators succeed. -/
theorem unvalidated_password_length (inst : ResetInstance) (env : Env) (email : String)
    (user : UserRecord) (hashed : String)
    (hlen : inst.options.passwordLength ≤ 0)
    (hl : env.lookup email = .returns (some user, none))
    (hh : env.hash "" inst.options.saltRounds = .returns hashed)
    (hu : env.update user.id hashed = .returns none)
    (hs : env.send inst.mailgunDomain (composedEmail inst.options email "")
          = .returns ()) :
    generateRandomPassword inst.options.passwordLength env.rand = "" ∧
    resetPasswordByEmail inst env email
      = (successResult,
          { writes := [(user.id, hashed)]
            sends := [composedEmail inst.options email ""] }) := by
  have hgen := generateRandomPassword_of_nonpos inst.options.passwordLength env.rand hlen
  refine ⟨hgen, ?_⟩
  simp only [resetPasswordByEmail, hgen, hl, hh, hu, hs]

/-! ### The constructor -/

/-- A connection field that is absent (`undefined`) or the empty string
— exactly the strings that are falsy in JavaScript. -/
def absentOrEmpty (s : Option String) : Prop := s = none ∨ s = some ""

lemma falsyStr_iff (s : Option String) : falsyStr s = true ↔ absentOrEmpty s := by
  cases s with
  | none => simp [falsyStr, absentOrEmpty]
  | some v => simp [falsyStr, absentOrEmpty, String.isEmpty_iff]

/-- C6.  Construction fails exactly when one of the four required
connection fields is absent or empty; on success the effective options
are the documented defaults overridden field-by-field by the supplied
options (including the template function). -/
theorem constructor_contract (config : Config) :
    ((∃ e, mkSupabasePasswordReset config = .error e) ↔
      (absentOrEmpty config.supabaseUrl ∨ absentOrEmpty config.supabaseKey ∨
       absentOrEmpty config.mailgunApiKey ∨ absentOrEmpty config.mailgunDomain)) ∧
    ∀ inst, mkSupabasePasswordReset config = .ok inst →
      inst.options.saltRounds = ((config.options.getD {}).saltRounds).getD 10 ∧
      inst.options.passwordLength = ((config.options.getD {}).passwordLength).getD 10 ∧
      inst.options.fromEmail
        = ((config.options.getD {}).fromEmail).getD "noreply@yourdomain.com" ∧
      inst.options.fromName = ((config.options.getD {}).fromName).getD "Password Reset" ∧
      inst.options.subject
        = ((config.options.getD {}).subject).getD "Your Password Has Been Reset" ∧
      inst.options.emailTemplateFunction
        = ((config.options.getD {}).emailTemplateFunction).getD defaultEmailTemplate := by
  constructor
  · constructor
    · rintro ⟨e, he⟩
      rw [mkSupabasePasswordReset] at he
      split at he
      · rename_i hc
        simp only [Bool.or_eq_true, falsyStr_iff] at hc
        tauto
      · cases he
    · intro h
      have hc : (falsyStr config.supabaseUrl || falsyStr config.supabaseKey
          || falsyStr config.mailgunApiKey || falsyStr config.mailgunDomain) = true := by
        simp only [Bool.or_eq_true, falsyStr_iff]
        tauto
      rw [mkSupabasePasswordReset, if_pos hc]
      exact ⟨_, rfl⟩
  · intro inst h
    rw [mkSupabasePasswordReset] at h
    split at h
    · cases h
    · cases h
      exact ⟨rfl, rfl, rfl, rfl, rfl, rfl⟩

/-! ### Concrete instantiations

A directory holding the single record `u1 / user@example.com`, a
bcrypt-style hash stub that prefixes its input with `$2b$10$`, and an
instance built from the default options. -/

def testUser : UserRecord := { id := "u1", email := "user@example.com" }

def testOptions : Options := mergeOptions {}

def testInstance : ResetInstance :=
  { mailgunDomain := "mg.example.com", options := testOptions }

def happyLookup (email : String) : Outcome (Option UserRecord × Option String) :=
  if email = "user@example.com" then .returns (some testUser, none)
  else .returns (none, some "PGRST116")

def markHash (p : String) (_rounds : Int) : Outcome String :=
  .returns ("$2b$10$" ++ p)

def happyEnv : Env :=
  { lookup := happyLookup
    rand := boundedRand
    hash := markHash
    update := fun _ _ => .returns none
    send := fun _ _ => .returns () }

def failUpdateEnv : Env :=
  { happyEnv with update := fun _ _ => .returns (some "write failed") }

def throwSendEnv : Env :=
  { happyEnv with send := fun _ _ => .throws "Mailgun error" }

def throwLookupEnv : Env :=
  { happyEnv with lookup := fun _ => .throws "fetch failed" }

def happyPwd : String :=
  generateRandomPassword testInstance.options.passwordLength happyEnv.rand

lemma markHash_ne (p : String) (r : Int) (h : String) :
    markHash p r = .returns h → h ≠ p := by
  intro heq
  simp only [markHash, Outcome.returns.injEq] at heq
  subst heq
  intro hcontra
  have hlen := congrArg String.length hcontra
  rw [String.length_append] at hlen
  have h7 : ("$2b$10$" : String).length = 7 := rfl
  rw [h7] at hlen
  omega

/-- Witness for C5: a lookup that throws is converted into the
unexpected-error result carrying the exception message. -/
theorem reset_total_witness :
    resetPasswordByEmail testInstance throwLookupEnv "user@example.com"
      = (unexpectedErrorResult "fetch failed", {}) :=
  (reset_total testInstance throwLookupEnv "user@example.com").2.1 "fetch failed" rfl

/-- Witness for C2 at an email with no directory record. -/
theorem reset_user_not_found_witness :
    resetPasswordByEmail testInstance happyEnv "missing@example.com"
      = (userNotFoundResult, {}) :=
  reset_user_not_found testInstance happyEnv "missing@example.com" none (some "PGRST116")
    (by decide) (Or.inl rfl)

/-- Witness for C3 with a directory whose update call reports an error. -/
theorem reset_update_failure_witness :
    resetPasswordByEmail testInstance failUpdateEnv "user@example.com"
      = (failedUpdateResult, { writes := [(testUser.id, "$2b$10$" ++ happyPwd)], sends := [] }) :=
  by exact reset_update_failure testInstance failUpdateEnv "user@example.com" testUser
      ("$2b$10$" ++ happyPwd) "write failed" (by decide) (by decide) (by decide)

/-- Witness for C4 with a Mailgun client that throws on send. -/
theorem reset_send_failure_witness :
    (resetPasswordByEmail testInstance throwSendEnv "user@example.com"
        = (unexpectedErrorResult "Mailgun error",
            { writes := [(testUser.id, "$2b$10$" ++ happyPwd)]
              sends := [composedEmail testInstance.options "user@example.com"
                (generateRandomPassword testInstance.options.passwordLength
                  throwSendEnv.rand)] }))
      ∧ (unexpectedErrorResult "Mailgun error").error = some "Mailgun error" :=
  by exact reset_send_failure testInstance throwSendEnv "user@example.com" testUser
      ("$2b$10$" ++ happyPwd) "Mailgun error" (by decide) (by decide) (by decide) (by decide)

/-- Witness for C1 on the all-succeeding environment. -/
theorem reset_success_witness :
    (resetPasswordByEmail testInstance happyEnv "user@example.com"
        = (successResult,
            { writes := [(testUser.id, "$2b$10$" ++ happyPwd)]
              sends := [composedEmail testInstance.options "user@example.com" happyPwd] }))
      ∧ (composedEmail testInstance.options "user@example.com" happyPwd).to_
          = "user@example.com" :=
  by exact reset_success testInstance happyEnv "user@example.com" testUser
      ("$2b$10$" ++ happyPwd) (by decide) (by decide) (by decide) (by decide)

/-- Witness for C8 on the all-succeeding environment. -/
theorem reset_email_composition_witness :
    (resetPasswordByEmail testInstance happyEnv "user@example.com").2.sends
      = [{ from_ := testInstance.options.fromName ++ " <" ++ testInstance.options.fromEmail ++ ">"
           to_ := "user@example.com"
           subject := testInstance.options.subject
           text := testInstance.options.emailTemplateFunction "user@example.com" happyPwd }] :=
  by exact reset_email_composition testInstance happyEnv "user@example.com" testUser
      ("$2b$10$" ++ happyPwd) (by decide) (by decide) (by decide)

/-- Witness for C9 with the prefixing hash stub, at the one write the
successful run performs. -/
theorem reset_writes_only_hash_witness :
    happyEnv.hash (generateRandomPassword testInstance.options.passwordLength happyEnv.rand)
        testInstance.options.saltRounds
      = .returns ("$2b$10$" ++ happyPwd)
    ∧ "$2b$10$" ++ happyPwd
        ≠ generateRandomPassword testInstance.options.passwordLength happyEnv.rand :=
  by exact reset_writes_only_hash testInstance happyEnv "user@example.com"
      (fun p r h => markHash_ne p r h) (testUser.id, "$2b$10$" ++ happyPwd) (by decide)

/-- An instance configured with a negative generated-password length. -/
def shortInstance : ResetInstance :=
  { mailgunDomain := "mg.example.com"
    options := mergeOptions { passwordLength := some (-3) } }

/-- Witness for C10: with `passwordLength = -3`, the run hashes, stores
and emails the empty credential and still reports success. -/
theorem unvalidated_password_length_witness :
    generateRandomPassword shortInstance.options.passwordLength happyEnv.rand = "" ∧
    resetPasswordByEmail shortInstance happyEnv "user@example.com"
      = (successResult,
          { writes := [(testUser.id, "$2b$10$")]
            sends := [composedEmail shortInstance.options "user@example.com" ""] }) :=
  by exact unvalidated_password_length shortInstance happyEnv "user@example.com" testUser
      "$2b$10$" (by decide) (by decide) (by decide) (by decide) (by decide)

/-- A complete configuration with two overridden options. -/
def goodConfig : Config :=
  { supabaseUrl := some "https://proj.supabase.co"
    supabaseKey := some "service-role-key"
    mailgunApiKey := some "mg-key"
    mailgunDomain := some "mg.example.com"
    options := some { saltRounds := some 12, passwordLength := some 12 } }

/-- The instance `goodConfig` constructs. -/
def goodInst : ResetInstance :=
  { mailgunDomain := "mg.example.com"
    options := mergeOptions { saltRounds := some 12, passwordLength := some 12 } }

/-- Witness for C6 at `goodConfig`. -/
theorem constructor_contract_witness :
    goodInst.options.saltRounds = ((goodConfig.options.getD {}).saltRounds).getD 10 ∧
    goodInst.options.passwordLength = ((goodConfig.options.getD {}).passwordLength).getD 10 ∧
    goodInst.options.fromEmail
      = ((goodConfig.options.getD {}).fromEmail).getD "noreply@yourdomain.com" ∧
    goodInst.options.fromName = ((goodConfig.options.getD {}).fromName).getD "Password Reset" ∧
    goodInst.options.subject
      = ((goodConfig.options.getD {}).subject).getD "Your Password Has Been Reset" ∧
    goodInst.options.emailTemplateFunction
      = ((goodConfig.options.getD {}).emailTemplateFunction).getD defaultEmailTemplate :=
  (constructor_contract goodConfig).2 goodInst rfl

end SupabasePasswordReset
